import Mathlib

/-!
Verification of the order saga coordinator (`src/models/order.js`) of the
federated-monolith-services repository.

JavaScript values are shallowly embedded:
* JS numbers that carry prices and totals become `ℚ` (all literals in the
  program are decimal fractions, exactly representable);
* a possibly-absent JS property becomes an `Option`;
* JS truthiness of a possibly-absent string (`undefined` and `""` are falsy)
  becomes `jsTruthy`;
* a JS function that can `throw` becomes an `Except String` computation whose
  error value is the thrown message;
* the five order statuses are the five string constants of the source's
  `OrderStatus` object, compared as strings exactly as the source does.
-/

namespace OrderModel

/-- JS truthiness of a possibly-absent string property: `undefined` and the
empty string are falsy, every other string is truthy. -/
def jsTruthy : Option String → Bool
  | none => false
  | some s => s ≠ ""

/-- One element of `orderItems` as the source reads it: `itemId` may be
absent, `price` is `some` exactly when the property is present and is a JS
number (`typeof i.price === "number"`), `qty` is optional. -/
structure OrderItem where
  itemId : Option String
  price : Option ℚ
  qty : Option ℚ
deriving Repr, DecidableEq

/-- The validity test `i.itemId && typeof i.price === "number"` applied to
one item. -/
def itemOk (i : OrderItem) : Bool :=
  jsTruthy i.itemId && i.price.isSome

/-- The JS argument `orderItems` as `checkItems` can receive it: absent
(`undefined`/`null`), a single bare item object, or an array of items. -/
inductive ItemsArg where
  | undef : ItemsArg
  | obj : OrderItem → ItemsArg
  | arr : List OrderItem → ItemsArg
deriving Repr, DecidableEq

/-- `checkItems` (order.js:50-63): throws on an absent argument, wraps a
single non-array item into a one-element list, and accepts a list exactly
when it is non-empty and every item passes `itemOk`. -/
def checkItems : ItemsArg → Except String (List OrderItem)
  | ItemsArg.undef => Except.error "order contains no items"
  | ItemsArg.obj i =>
      if 0 < [i].length ∧ [i].all itemOk then Except.ok [i]
      else Except.error "order items invalid"
  | ItemsArg.arr l =>
      if 0 < l.length ∧ l.all itemOk then Except.ok l
      else Except.error "order items invalid"

/-- The quantity the source charges for an item: `item.qty || 1`, so an
absent `qty` and the falsy value `0` both become `1`. -/
def jsQty (i : OrderItem) : ℚ :=
  match i.qty with
  | none => 1
  | some q => if q = 0 then 1 else q

/-- The amount one item contributes to the total: `item.price * qty`. -/
def itemAmount (i : OrderItem) : ℚ :=
  i.price.getD 0 * jsQty i

/-- `calcTotal` (order.js:69-75): validate the items with `checkItems`,
then reduce with accumulator `total += item.price * (item.qty || 1)`
starting from `0`. -/
def calcTotal (orderItems : ItemsArg) : Except String ℚ :=
  (checkItems orderItems).map (fun items =>
    items.foldl (fun total i => total + itemAmount i) 0)

-- The status constants of the source's `OrderStatus` object.
namespace OrderStatus

def PENDING : String := "PENDING"

def APPROVED : String := "APPROVED"

def SHIPPING : String := "SHIPPING"

def COMPLETE : String := "COMPLETE"

def CANCELED : String := "CANCELED"

end OrderStatus

/-- `invalidStatusChange(from, to)` (order.js:111-113): the produced guard
flags a proposed value that equals `to` while the previous snapshot's
status equals `from`. -/
def invalidStatusChange (f t : String) (prevStatus : String) (propVal : String) : Bool :=
  propVal = t && prevStatus = f

/-- The source's `invalidStatusChanges` list (order.js:115-126): the five
explicitly forbidden edges. -/
def invalidStatusChanges : List (String → String → Bool) :=
  [ invalidStatusChange OrderStatus.APPROVED OrderStatus.PENDING,
    invalidStatusChange OrderStatus.SHIPPING OrderStatus.PENDING,
    invalidStatusChange OrderStatus.SHIPPING OrderStatus.APPROVED,
    invalidStatusChange OrderStatus.PENDING OrderStatus.SHIPPING,
    invalidStatusChange OrderStatus.PENDING OrderStatus.COMPLETE ]

/-- `statusChangeValid` (order.js:131-138): returns `true` at once when the
previous snapshot has no truthy `orderStatus`; otherwise throws
"invalid status change" when some entry of `invalidStatusChanges` matches,
and returns `true` otherwise. -/
def statusChangeValid (prevStatus : Option String) (propVal : String) :
    Except String Bool :=
  if jsTruthy prevStatus = false then Except.ok true
  else if invalidStatusChanges.any (fun isc => isc (prevStatus.getD "") propVal) then
    Except.error "invalid status change"
  else Except.ok true

/-- `freezeOnCompletion(propKey)` (order.js:93-98): returns the key to
block when the previous snapshot's status is listed in
`[COMPLETE, CANCELED]`, and `null` otherwise. -/
def freezeOnCompletion (propKey : String) (prevStatus : Option String) :
    Option String :=
  match prevStatus with
  | none => none
  | some s =>
      if [OrderStatus.COMPLETE, OrderStatus.CANCELED].contains s then some propKey
      else none

/-- `updateSignature` (order.js:163-165): recompute the flag as
`calcTotal(propVal) > 999.99 || o.signatureRequired`, where
`signatureRequired` is the truthiness of the order's current flag. -/
def updateSignature (signatureRequired : Bool) (propVal : ItemsArg) :
    Except String Bool :=
  (calcTotal propVal).map (fun total =>
    decide (total > 999.99) || signatureRequired)

/-- The value `trackingUpdate` resolves with: the `done` flag and the single
`order.update({ trackingId, trackingStatus })` call it performs, recorded as
the list of written fields with their values. -/
structure TrackingUpdateResult where
  done : Bool
  writtenFields : List (String × String)
deriving Repr, DecidableEq

/-- `trackingUpdate` (order.js:216-225): throws when `trackingId` or
`trackingStatus` is falsy, before any update; otherwise updates exactly
the two tracking fields and reports `done` iff the status is
"orderDelivered". -/
def trackingUpdate (trackingId : String) (trackingStatus : String) :
    Except String TrackingUpdateResult :=
  if trackingId = "" ∨ trackingStatus = "" then
    Except.error "trackingId or trackingStatus missing"
  else
    Except.ok
      { done := trackingStatus = "orderDelivered",
        writtenFields :=
          [("trackingId", trackingId), ("trackingStatus", trackingStatus)] }

/-- The `changes` object an order event carries, restricted to the fields
the dispatcher and the claims inspect: the proposed `orderStatus` value and
a proposed `trackingId` value, each possibly absent. -/
structure Changes where
  orderStatus : Option String
  trackingId : Option String
deriving Repr, DecidableEq

/-- `handleOrderEvent` (order.js:364-368) composed with `handleStatusChange`
(order.js:357-359): when `changes?.orderStatus` is truthy or the event type
is "CREATE", dispatch `OrderActions[order.orderStatus]`; the result records
which status's action was invoked (`none` when no action runs). -/
def handleOrderEvent (orderStatusNow : String) (eventType : Option String)
    (changes : Option Changes) : Option String :=
  if jsTruthy (changes.bind Changes.orderStatus) || eventType = some "CREATE" then
    some orderStatusNow
  else
    none

/-- `needSignature` (order.js:370-372): the body is a bare ternary
expression with no `return`, so on a non-boolean `input` the function
evaluates `orderTotal > 999.99`, discards it, and returns `undefined`;
on a boolean `input` it evaluates the identifier `requireSignature`, which
is not in scope at module level, raising a `ReferenceError`. -/
def needSignature (input : Option Bool) (orderTotal : ℚ) :
    Except String (Option Bool) :=
  match input with
  | some _ => Except.error "ReferenceError: requireSignature is not defined"
  | none =>
      let _discarded := decide (orderTotal > 999.99)
      Except.ok none

/-- Modelled from the spec: `checkFormat` lives in the `mixins` module,
which is not among the provided sources. The spec says only that
`creditCardNumber` is "format-checked at creation" and Scenario 1 creates
an order without supplying a card, so an absent card passes; no concrete
format is specified, and no claim supplies a card value. -/
def checkFormat (creditCardNumber : Option String) : Except String Unit :=
  let _card := creditCardNumber
  Except.ok ()

/-- The argument object of `createOrder`, restricted to the fields the
claims exercise; omitted fields default exactly as in the source
(`creditCardNumber = null`, `requireSignature` absent). -/
structure CreateOrderInput where
  orderItems : ItemsArg
  creditCardNumber : Option String
  requireSignature : Option Bool
deriving Repr, DecidableEq

/-- The frozen record `createOrder` returns. -/
structure Order where
  orderItems : ItemsArg
  creditCardNumber : Option String
  signatureRequired : Option Bool
  orderTotal : ℚ
  orderStatus : String
  orderNo : String
deriving Repr, DecidableEq

/-- `orderFactory(dependencies)`'s `createOrder` (order.js:378-402):
compute the total with `calcTotal`, format-check the card, set
`signatureRequired` from `needSignature`, status PENDING, and a fresh
`orderNo` from the injected uuid dependency. -/
def createOrder (uuid : String) (input : CreateOrderInput) :
    Except String Order := do
  let total ← calcTotal input.orderItems
  let _ ← checkFormat input.creditCardNumber
  let sig ← needSignature input.requireSignature total
  Except.ok
    { orderItems := input.orderItems,
      creditCardNumber := input.creditCardNumber,
      signatureRequired := sig,
      orderTotal := total,
      orderStatus := OrderStatus.PENDING,
      orderNo := uuid }

/-- The item list of Scenario 1:
`[{itemId:"a",price:500,qty:1},{itemId:"b",price:600,qty:1}]`. -/
def scenario1Items : ItemsArg :=
  ItemsArg.arr
    [ { itemId := some "a", price := some 500, qty := some 1 },
      { itemId := some "b", price := some 600, qty := some 1 } ]

/-- The allowed-edge set named by the status-transition claim, written from
the spec's words (§4.1): PENDING→APPROVED, APPROVED→SHIPPING,
SHIPPING→COMPLETE, and PENDING/APPROVED/SHIPPING→CANCELED. -/
def specAllowedEdges : List (String × String) :=
  [ (OrderStatus.PENDING, OrderStatus.APPROVED),
    (OrderStatus.APPROVED, OrderStatus.SHIPPING),
    (OrderStatus.SHIPPING, OrderStatus.COMPLETE),
    (OrderStatus.PENDING, OrderStatus.CANCELED),
    (OrderStatus.APPROVED, OrderStatus.CANCELED),
    (OrderStatus.SHIPPING, OrderStatus.CANCELED) ]

/-- The total the items-sum claim describes, written from the spec's words:
Σ over the items of price × qty, with qty defaulting to 1 only when it is
absent. -/
def specTotal (items : List OrderItem) : ℚ :=
  (items.map (fun i => i.price.getD 0 * i.qty.getD 1)).sum

/-- The five explicitly forbidden edges, as pairs, for stating what
`statusChangeValid` rejects. -/
def forbiddenEdges : List (String × String) :=
  [ (OrderStatus.APPROVED, OrderStatus.PENDING),
    (OrderStatus.SHIPPING, OrderStatus.PENDING),
    (OrderStatus.SHIPPING, OrderStatus.APPROVED),
    (OrderStatus.PENDING, OrderStatus.SHIPPING),
    (OrderStatus.PENDING, OrderStatus.COMPLETE) ]

/-- The total the amended items-sum claim describes: Σ over the items of
price × qty, where qty defaults to 1 when it is absent or equal to the
falsy value 0. -/
def specTotalAmended (items : List OrderItem) : ℚ :=
  (items.map (fun i =>
    i.price.getD 0 *
      (match i.qty with
       | none => 1
       | some q => if q = 0 then 1 else q))).sum

end OrderModel

namespace OrderModel

/-- The source's reduce with a running accumulator equals the accumulator
plus the sum of the per-item amounts. -/
lemma foldl_itemAmount (l : List OrderItem) (a : ℚ) :
    l.foldl (fun total i => total + itemAmount i) a = a + (l.map itemAmount).sum := by
  induction l generalizing a with
  | nil => simp
  | cons i rest ih =>
      simp only [List.foldl_cons, List.map_cons, List.sum_cons, ih]
      ring

/-- The amended spec total is exactly the sum of the source's per-item
amounts. -/
lemma specTotalAmended_eq (l : List OrderItem) :
    specTotalAmended l = (l.map itemAmount).sum := rfl

/-- On a truthy previous status, `statusChangeValid` throws exactly on the
five forbidden edges. -/
lemma statusChangeValid_some (p v : String) (hp : p ≠ "") :
    statusChangeValid (some p) v =
      if (p, v) ∈ forbiddenEdges then Except.error "invalid status change"
      else Except.ok true := by
  have key : invalidStatusChanges.any (fun isc => isc p v) = true ↔
      (p, v) ∈ forbiddenEdges := by
    simp only [invalidStatusChanges, invalidStatusChange, forbiddenEdges,
      List.any_cons, List.any_nil, Bool.or_eq_true, Bool.and_eq_true,
      decide_eq_true_eq, List.mem_cons, List.not_mem_nil, or_false,
      Prod.mk.injEq]
    tauto
  have h1 : jsTruthy (some p) = true := by simp [jsTruthy, hp]
  unfold statusChangeValid
  rw [h1]
  simp only [Bool.true_eq_false, if_false, Option.getD_some]
  by_cases hm : (p, v) ∈ forbiddenEdges
  · rw [if_pos (key.mpr hm), if_pos hm]
  · rw [if_neg (fun hb => hm (key.mp hb)), if_neg hm]

/-- C1: evaluating the factory at Scenario 1's input
(items `[{itemId:"a",price:500,qty:1},{itemId:"b",price:600,qty:1}]`, no
explicit signature request, no card) yields `orderTotal = 1100` and
`orderStatus = PENDING` as the claim states, but `signatureRequired` is
`undefined` (`none`), not `true`: `needSignature` never returns its
ternary's value. -/
theorem c1_scenario1_factory_eval :
    createOrder "order-1"
        { orderItems := scenario1Items, creditCardNumber := none,
          requireSignature := none } =
      Except.ok
        { orderItems := scenario1Items, creditCardNumber := none,
          signatureRequired := none, orderTotal := 1100,
          orderStatus := OrderStatus.PENDING, orderNo := "order-1" } ∧
    ({ orderItems := scenario1Items, creditCardNumber := none,
       signatureRequired := none, orderTotal := 1100,
       orderStatus := OrderStatus.PENDING, orderNo := "order-1" }
      : Order).signatureRequired ≠ some true := by
  have h : calcTotal scenario1Items = Except.ok 1100 := by
    simp [calcTotal, checkItems, scenario1Items, itemOk, jsTruthy, itemAmount,
      jsQty, Except.map, List.foldl]
    norm_num
  constructor
  · simp [createOrder, h, checkFormat, needSignature]
    rfl
  · decide

/-- C2 counterexample: for the single item `{itemId:"a",price:5,qty:0}`
(which has an itemId and a numeric price), `calcTotal` returns `5`, while
the claimed formula — price × qty with qty defaulting to 1 only when
absent — gives `0`. -/
theorem c2_counterexample :
    calcTotal (ItemsArg.arr [{ itemId := some "a", price := some 5, qty := some 0 }]) =
        Except.ok 5 ∧
    specTotal [{ itemId := some "a", price := some 5, qty := some 0 }] = 0 ∧
    (5 : ℚ) ≠ 0 := by
  refine ⟨?_, ?_, by norm_num⟩
  · simp [calcTotal, checkItems, itemOk, jsTruthy, itemAmount, jsQty,
      Except.map, List.foldl]
  · simp [specTotal]

/-- C2 (amended): for every non-empty list of items each having a truthy
itemId and a numeric price, `calcTotal` returns Σ price × qty where qty
defaults to 1 when it is absent or 0 (falsy); for an empty list or an
absent items argument, `calcTotal` throws. -/
theorem c2_calcTotal_sum (l : List OrderItem) (h1 : l ≠ [])
    (h2 : ∀ i ∈ l, itemOk i = true) :
    calcTotal (ItemsArg.arr l) = Except.ok (specTotalAmended l) ∧
    calcTotal (ItemsArg.arr []) = Except.error "order items invalid" ∧
    calcTotal ItemsArg.undef = Except.error "order contains no items" := by
  refine ⟨?_, rfl, rfl⟩
  have hlen : 0 < l.length := List.length_pos.mpr h1
  have hall : l.all itemOk = true := List.all_eq_true.mpr h2
  simp only [calcTotal, checkItems]
  rw [if_pos ⟨hlen, hall⟩]
  simp only [Except.map]
  rw [foldl_itemAmount, specTotalAmended_eq, zero_add]

/-- C2 witness: the amended sum theorem applied to Scenario 1's item list. -/
theorem c2_calcTotal_sum_witness :
    calcTotal scenario1Items =
      Except.ok (specTotalAmended
        [ { itemId := some "a", price := some 500, qty := some 1 },
          { itemId := some "b", price := some 600, qty := some 1 } ]) :=
  (c2_calcTotal_sum
    [ { itemId := some "a", price := some 500, qty := some 1 },
      { itemId := some "b", price := some 600, qty := some 1 } ]
    (by decide) (by decide)).1

/-- C3 counterexample: APPROVED→COMPLETE is not an edge of the claim's
allowed set, yet `statusChangeValid` accepts it without throwing. -/
theorem c3_counterexample :
    statusChangeValid (some OrderStatus.APPROVED) OrderStatus.COMPLETE =
        Except.ok true ∧
    specAllowedEdges.contains (OrderStatus.APPROVED, OrderStatus.COMPLETE) =
        false := by
  exact ⟨rfl, rfl⟩

/-- C3 (amended): for every order with a truthy previous status, a proposed
transition is rejected with the invalid-status-change error exactly when it
is one of the five explicitly forbidden edges APPROVED→PENDING,
SHIPPING→PENDING, SHIPPING→APPROVED, PENDING→SHIPPING, PENDING→COMPLETE
(the guard throws before the update applies, leaving `orderStatus`
unchanged); every other proposed transition is accepted. -/
theorem c3_statusChangeValid_forbidden (p v : String) (hp : p ≠ "") :
    (statusChangeValid (some p) v = Except.error "invalid status change" ↔
        (p, v) ∈ forbiddenEdges) ∧
    ((p, v) ∉ forbiddenEdges → statusChangeValid (some p) v = Except.ok true) := by
  rw [statusChangeValid_some p v hp]
  constructor
  · by_cases hm : (p, v) ∈ forbiddenEdges
    · rw [if_pos hm]; simp [hm]
    · rw [if_neg hm]; simp [hm]
  · intro hm
    rw [if_neg hm]

/-- C3 witness: the amended theorem at the forbidden edge APPROVED→PENDING
and at the accepted proposal APPROVED→COMPLETE. -/
theorem c3_statusChangeValid_forbidden_witness :
    statusChangeValid (some "APPROVED") "PENDING" =
        Except.error "invalid status change" ∧
    statusChangeValid (some "APPROVED") "COMPLETE" = Except.ok true :=
  ⟨(c3_statusChangeValid_forbidden "APPROVED" "PENDING" (by decide)).1.mpr
      (by decide),
   (c3_statusChangeValid_forbidden "APPROVED" "COMPLETE" (by decide)).2
      (by decide)⟩

/-- C4: on a record whose previous snapshot has no `orderStatus` (the first
write), `statusChangeValid` returns true and does not throw, whatever
status value is proposed. -/
theorem c4_first_write_valid (propVal : String) :
    statusChangeValid none propVal = Except.ok true := rfl

/-- C5: `freezeOnCompletion(field)` returns the field name to block exactly
when the previous status is COMPLETE or CANCELED, and otherwise returns
null. -/
theorem c5_freezeOnCompletion (field : String) (prev : Option String) :
    (freezeOnCompletion field prev = some field ↔
        prev = some OrderStatus.COMPLETE ∨ prev = some OrderStatus.CANCELED) ∧
    (freezeOnCompletion field prev = none ↔
        ¬(prev = some OrderStatus.COMPLETE ∨ prev = some OrderStatus.CANCELED)) := by
  match prev with
  | none => simp [freezeOnCompletion]
  | some s =>
      by_cases hs : s = OrderStatus.COMPLETE ∨ s = OrderStatus.CANCELED
      · have h : [OrderStatus.COMPLETE, OrderStatus.CANCELED].contains s = true := by
          simpa [OrderStatus.COMPLETE, OrderStatus.CANCELED] using hs
        simp [freezeOnCompletion, h, hs]
      · have h : [OrderStatus.COMPLETE, OrderStatus.CANCELED].contains s = false := by
          simpa [OrderStatus.COMPLETE, OrderStatus.CANCELED] using hs
        simp [freezeOnCompletion, h, hs]

/-- C6: when the recomputed total of the new items is `t`, an order whose
`signatureRequired` is already true keeps it true whatever `t` is, and an
order whose flag is not yet true gets true exactly when `t` exceeds
999.99. -/
theorem c6_updateSignature_monotonic (sig : Bool) (items : ItemsArg) (t : ℚ)
    (h : calcTotal items = Except.ok t) :
    (sig = true → updateSignature sig items = Except.ok true) ∧
    (sig = false →
      (updateSignature sig items = Except.ok true ↔ t > 999.99)) := by
  have heq : updateSignature sig items =
      Except.ok (decide (t > 999.99) || sig) := by
    unfold updateSignature
    rw [h]
    rfl
  constructor
  · intro hs
    rw [heq, hs, Bool.or_true]
  · intro hs
    rw [heq, hs, Bool.or_false]
    constructor
    · intro hok
      have : decide (t > 999.99) = true := by
        injection hok
      exact of_decide_eq_true this
    · intro ht
      rw [decide_eq_true ht]

/-- C6 witness: the monotonicity theorem at a one-item list totalling 5,
below the threshold. -/
theorem c6_updateSignature_monotonic_witness :
    updateSignature true
        (ItemsArg.arr [{ itemId := some "a", price := some 5, qty := none }]) =
      Except.ok true ∧
    (updateSignature false
        (ItemsArg.arr [{ itemId := some "a", price := some 5, qty := none }]) =
      Except.ok true ↔ (5 : ℚ) > 999.99) :=
  ⟨(c6_updateSignature_monotonic true
      (ItemsArg.arr [{ itemId := some "a", price := some 5, qty := none }]) 5
      (by simp [calcTotal, checkItems, itemOk, jsTruthy, itemAmount, jsQty,
        Except.map, List.foldl])).1 rfl,
   (c6_updateSignature_monotonic false
      (ItemsArg.arr [{ itemId := some "a", price := some 5, qty := none }]) 5
      (by simp [calcTotal, checkItems, itemOk, jsTruthy, itemAmount, jsQty,
        Except.map, List.foldl])).2 rfl⟩

/-- C7: with non-empty `trackingId` and `trackingStatus`, `trackingUpdate`
reports `done` exactly when the status is "orderDelivered" and writes only
the two tracking fields, never `orderStatus`; with either argument missing
it throws before any update. -/
theorem c7_trackingUpdate (tid ts : String) :
    (tid ≠ "" → ts ≠ "" →
      ∃ r, trackingUpdate tid ts = Except.ok r ∧
        (r.done = true ↔ ts = "orderDelivered") ∧
        r.writtenFields = [("trackingId", tid), ("trackingStatus", ts)] ∧
        "orderStatus" ∉ r.writtenFields.map Prod.fst) ∧
    (tid = "" ∨ ts = "" →
      trackingUpdate tid ts =
        Except.error "trackingId or trackingStatus missing") := by
  constructor
  · intro h1 h2
    have hcond : ¬(tid = "" ∨ ts = "") := by
      rintro (h | h)
      · exact h1 h
      · exact h2 h
    refine ⟨{ done := decide (ts = "orderDelivered"),
              writtenFields :=
                [("trackingId", tid), ("trackingStatus", ts)] }, ?_, ?_, rfl, ?_⟩
    · unfold trackingUpdate
      rw [if_neg hcond]
    · exact decide_eq_true_iff
    · intro hmem
      simp only [List.map_cons, List.map_nil, List.mem_cons,
        List.not_mem_nil, or_false] at hmem
      rcases hmem with h | h
      · exact absurd h (by decide)
      · exact absurd h (by decide)
  · intro hcond
    unfold trackingUpdate
    rw [if_pos hcond]

/-- C7 witness: the tracking theorem at a delivered update and at a missing
`trackingId`. -/
theorem c7_trackingUpdate_witness :
    (∃ r, trackingUpdate "t1" "orderDelivered" = Except.ok r ∧
        (r.done = true ↔ "orderDelivered" = "orderDelivered") ∧
        r.writtenFields =
          [("trackingId", "t1"), ("trackingStatus", "orderDelivered")] ∧
        "orderStatus" ∉ r.writtenFields.map Prod.fst) ∧
    trackingUpdate "" "x" =
      Except.error "trackingId or trackingStatus missing" :=
  ⟨(c7_trackingUpdate "t1" "orderDelivered").1 (by decide) (by decide),
   (c7_trackingUpdate "" "x").2 (Or.inl rfl)⟩

/-- C8: the dispatcher runs the action for the order's current status
exactly when the changed fields carry a truthy `orderStatus` or the event
is a creation, and runs no action otherwise — in particular an update that
records only `trackingId` triggers nothing. -/
theorem c8_handleOrderEvent (st : String) (et : Option String)
    (ch : Option Changes) :
    (handleOrderEvent st et ch = some st ↔
        (jsTruthy (ch.bind Changes.orderStatus) = true ∨ et = some "CREATE")) ∧
    (handleOrderEvent st et ch = none ↔
        ¬(jsTruthy (ch.bind Changes.orderStatus) = true ∨ et = some "CREATE")) := by
  unfold handleOrderEvent
  by_cases hc : jsTruthy (ch.bind Changes.orderStatus) = true ∨ et = some "CREATE"
  · have hb : (jsTruthy (ch.bind Changes.orderStatus) ||
        decide (et = some "CREATE")) = true := by
      rcases hc with h | h
      · rw [h, Bool.true_or]
      · rw [decide_eq_true h, Bool.or_true]
    rw [if_pos hb]
    simp [hc]
  · have hb : ¬((jsTruthy (ch.bind Changes.orderStatus) ||
        decide (et = some "CREATE")) = true) := by
      rw [Bool.or_eq_true, decide_eq_true_iff]
      exact hc
    rw [if_neg hb]
    simp [hc]

/-- C10: `checkItems` wraps a single non-array item with a truthy itemId
and a numeric price into a one-element list and returns it. -/
theorem c10_checkItems_single (i : OrderItem) (h1 : jsTruthy i.itemId = true)
    (h2 : i.price.isSome = true) :
    checkItems (ItemsArg.obj i) = Except.ok [i] := by
  simp only [checkItems]
  have hcond : 0 < [i].length ∧ [i].all itemOk = true :=
    ⟨by simp, by simp [itemOk, h1, h2]⟩
  rw [if_pos hcond]

/-- C10 witness: a bare item `{itemId:"a",price:5}` is wrapped into a
one-element list. -/
theorem c10_checkItems_single_witness :
    checkItems (ItemsArg.obj { itemId := some "a", price := some 5, qty := none }) =
      Except.ok [{ itemId := some "a", price := some 5, qty := none }] :=
  c10_checkItems_single { itemId := some "a", price := some 5, qty := none }
    (by decide) (by decide)

end OrderModel

